import Mathlib

/-
Verification of the redash-mcp query client and gateway
(src/app/redash_client.py and src/app/main.py) via a shallow embedding.

JSON values are modelled by the inductive `Json` below; Python dictionaries
become association lists (first binding wins, as Python dicts have unique
keys).  Python truthiness, `dict.get` with defaults, `d[k]` indexing (KeyError),
attribute errors from calling `.get` on non-dicts, and `raise_for_status`
(HTTP status >= 400 raises) are modelled explicitly.  The network is modelled
as an oracle (`Service`) giving the response to each outbound call, and each
client operation additionally returns the trace of outbound calls and sleeps
it performed.  The unbounded polling loop is modelled with explicit fuel:
an outcome of `none` means the loop was still running after `fuel` fetches.
-/

namespace RedashMCP

/-- JSON values exchanged with the Redash service.  Numbers are modelled as
integers; no float arithmetic occurs anywhere in the client. -/
inductive Json where
  | null
  | bool (b : Bool)
  | num (n : Int)
  | str (s : String)
  | arr (elems : List Json)
  | obj (fields : List (String × Json))

/-- Python exceptions that the client code can raise.  `protocolError` stands
for the bare `Exception(...)` raises used for contract-shape violations,
`upstreamError` for `requests` raising on a non-success HTTP status
(`raise_for_status`), `queryExecutionError` for the `Exception` raised on a
failed job (carrying the service-reported error value). -/
inductive PyErr where
  | upstreamError (status : Nat)
  | protocolError (msg : String)
  | queryExecutionError (errVal : Json)
  | keyError (key : String)
  | attributeError (attr : String)
  | typeError
  | valueError (msg : String)

/-- An HTTP response from the Redash service: status code and parsed JSON body. -/
structure HttpResponse where
  status : Nat
  body : Json

/-- First-match association-list lookup, the model of Python dict lookup. -/
def alist (k : String) : List (String × Json) → Option Json
  | [] => none
  | p :: rest => if p.1 = k then some p.2 else alist k rest

/-- Python truthiness on our JSON values (`if not query_result: ...`). -/
def truthy : Json → Bool
  | .null => false
  | .bool b => b
  | .num n => n != 0
  | .str s => !s.isEmpty
  | .arr xs => !xs.isEmpty
  | .obj fs => !fs.isEmpty

/-- Python `d[k]`: KeyError when the key is absent; indexing a non-dict JSON
value with a string key is a TypeError. -/
def pyIndex (v : Json) (k : String) : Except PyErr Json :=
  match v with
  | .obj fs =>
    match alist k fs with
    | some x => .ok x
    | none => .error (.keyError k)
  | _ => .error .typeError

/-- A single quote character, used when rendering Python `repr` strings. -/
def sq : String := String.singleton (Char.ofNat 39)

mutual

/-- Python `repr` of a JSON-derived value, used by the f-string error
messages.  String escaping inside `repr` is not modelled (no claim depends
on it). -/
def pyRepr : Json → String
  | .null => "None"
  | .bool true => "True"
  | .bool false => "False"
  | .num n => toString n
  | .str s => sq ++ s ++ sq
  | .arr xs => "[" ++ String.intercalate ", " (pyReprList xs) ++ "]"
  | .obj fs => "\x7b" ++ String.intercalate ", " (pyReprFields fs) ++ "\x7d"

/-- Helper for `pyRepr` on arrays. -/
def pyReprList : List Json → List String
  | [] => []
  | x :: rest => pyRepr x :: pyReprList rest

/-- Helper for `pyRepr` on objects. -/
def pyReprFields : List (String × Json) → List String
  | [] => []
  | p :: rest => (sq ++ p.1 ++ sq ++ ": " ++ pyRepr p.2) :: pyReprFields rest

end

/-- Python `str()` of a JSON-derived value: a string renders as itself,
anything else as its `repr`. -/
def pyStr : Json → String
  | .str s => s
  | v => pyRepr v

/-- The message a Python `except` block sees as `str(e)`.  The texts for
`attributeError` and `typeError` approximate CPython's renderings; no claim
depends on their exact wording.  `upstreamError`'s text approximates the
`requests.HTTPError` message, which embeds the status code. -/
def msgOf : PyErr → String
  | .upstreamError s => toString s ++ " Error for url"
  | .protocolError m => m
  | .queryExecutionError e => "Query execution failed: " ++ pyStr e
  | .keyError k => sq ++ k ++ sq
  | .attributeError a => "object has no attribute " ++ sq ++ a ++ sq
  | .typeError => "TypeError"
  | .valueError m => m

/-- POLL_INTERVAL = 1 second (redash_client.py line 23). -/
def POLL_INTERVAL : Nat := 1

/-- One outbound call performed by the client, recorded in the trace.
`createQuery` is POST /api/queries, `trigger` is POST
/api/queries/(id)/results (with its JSON payload, if one was sent),
`getJob` is GET /api/jobs/(job_id), `getResult` is GET
/api/query_results/(result_id), and `sleep` records a `time.sleep`. -/
inductive Call where
  | createQuery (payload : Json)
  | trigger (queryId : Json) (payload : Option Json)
  | getJob (jobId : Json)
  | sleep (seconds : Nat)
  | getResult (resultId : Json)

/-- The Redash service modelled as an oracle: the response to each outbound
call.  `onJob jid k` is the response to the k-th poll of job `jid`. -/
structure Service where
  onCreate : Json → HttpResponse
  onTrigger : Json → Option Json → HttpResponse
  onJob : Json → Nat → HttpResponse
  onResult : Json → HttpResponse

/-- Process-wide configuration: the default data source id and the MD5 hash
function used only for naming created queries (kept abstract). -/
structure Config where
  dataSourceId : Int
  hashFn : String → String

/-- Python `status == n` where `n` is an int literal: true exactly when the
JSON value is that integer (a non-numeric status never equals 3 or 4, and a
Python bool compares equal only to 0 or 1, so booleans are covered too). -/
def jnumEq (v : Json) (n : Int) : Bool :=
  match v with
  | .num m => m == n
  | _ => false

/-- One iteration of the polling loop in `_poll_job_status`
(redash_client.py lines 96-109): `raise_for_status`, then
`status_data["job"]["status"]`; status == 3 returns the job object,
status == 4 raises with `job.get("error", "Unknown error")`, anything else
continues (`.ok none`). -/
def pollStep (r : HttpResponse) : Except PyErr (Option Json) :=
  if 400 ≤ r.status then .error (.upstreamError r.status)
  else
    match pyIndex r.body "job" with
    | .error e => .error e
    | .ok job =>
      match pyIndex job "status" with
      | .error e => .error e
      | .ok st =>
        if jnumEq st 3 then .ok (some job)
        else if jnumEq st 4 then
          match job with
          | .obj jf => .error (.queryExecutionError ((alist "error" jf).getD (.str "Unknown error")))
          | _ => .error (.attributeError "get")
        else .ok none

/-- The `while True` polling loop of `_poll_job_status`, run with explicit
fuel (number of fetches allowed).  Returns the outcome (`none` when the
loop is still running after `fuel` fetches) together with the trace of
fetches and sleeps.  `t` is the index of the next fetch. -/
def pollTrace (f : Nat → HttpResponse) (jid : Json) : Nat → Nat → Option (Except PyErr Json) × List Call
  | _, 0 => (none, [])
  | t, fuel + 1 =>
    match pollStep (f t) with
    | .error e => (some (.error e), [.getJob jid])
    | .ok (some job) => (some (.ok job), [.getJob jid])
    | .ok none =>
      let rest := pollTrace f jid (t + 1) fuel
      (rest.1, .getJob jid :: .sleep POLL_INTERVAL :: rest.2)

/-- The trace left by a poll that observed n non-terminal statuses and then
exited on fetch n: n rounds of (fetch, sleep) and one final fetch. -/
def jobCalls (jid : Json) (n : Nat) : List Call :=
  (List.replicate n [Call.getJob jid, Call.sleep POLL_INTERVAL]).flatten ++ [Call.getJob jid]

/-- The payload selected by `_format_query_result` (redash_client.py line
126): `result.get("query_result", result)`. -/
def selectPayload (fields : List (String × Json)) : Json :=
  (alist "query_result" fields).getD (.obj fields)

/-- Body of `_format_query_result` once the argument is known to be a dict
(redash_client.py lines 111-142).  Mirrors the Python line by line: select
the payload, fail when it is falsy, otherwise rebuild the fixed shape with
`.get` defaults.  A truthy non-dict payload fails with an attribute error
at the first `.get`, as in Python; a non-dict `data` value likewise. -/
def formatDict (fields : List (String × Json)) (query : String) : Except PyErr Json :=
  match selectPayload fields with
  | .obj qf =>
    if truthy (.obj qf) then
      match (alist "data" qf).getD (.obj []) with
      | .obj df =>
        .ok (.obj [("query_result", .obj
          [ ("id", (alist "id" qf).getD .null),
            ("query", if query = "" then (alist "query" qf).getD (.str "") else .str query),
            ("data", .obj [("columns", (alist "columns" df).getD (.arr [])),
                           ("rows", (alist "rows" df).getD (.arr []))]),
            ("data_source_id", (alist "data_source_id" qf).getD .null),
            ("runtime", (alist "runtime" qf).getD (.num 0)),
            ("retrieved_at", (alist "retrieved_at" qf).getD .null) ])])
      | _ => .error (.attributeError "get")
    else .error (.protocolError "No query result in response")
  | v =>
    if truthy v then .error (.attributeError "get")
    else .error (.protocolError "No query result in response")

/-- `_format_query_result(result, query)`: calling `.get` on a non-dict raw
result is an attribute error, otherwise `formatDict` applies. -/
def format_query_result (result : Json) (query : String) : Except PyErr Json :=
  match result with
  | .obj fields => formatDict fields query
  | _ => .error (.attributeError "get")

/-- Resolution of the data source argument in `execute_query` (line 158):
Python `data_source_id or self.data_source_id`, so both `None` and `0` fall
back to the configured default. -/
def resolveDs (dsid : Option Int) (cfg : Config) : Int :=
  match dsid with
  | some d => if d ≠ 0 then d else cfg.dataSourceId
  | none => cfg.dataSourceId

/-- The body POSTed to /api/queries by `execute_query` (lines 162-166). -/
def queryPayload (cfg : Config) (query : String) (ds : Int) : Json :=
  .obj [("query", .str query), ("data_source_id", .num ds),
        ("name", .str ("MCP Query - " ++ (cfg.hashFn query).take 8))]

/-- `execute_query(query, data_source_id)` (redash_client.py lines 144-206):
create the query, trigger it, then either format an immediate
`query_result`, or poll the returned job and fetch + format its result;
a trigger body with neither key raises the "Invalid response format" error.
A non-dict trigger body is modelled as a `typeError`: in Python such a body
also fails before any result is produced (via `in` / indexing / `.keys()`),
and in particular the "Invalid response format" raise itself evaluates
`job_data.keys()` and so can only fire for dicts.  Returns the outcome
(`none` if the polling fuel ran out) and the trace of calls. -/
def execute_query (svc : Service) (query : String) (dsid : Option Int) (cfg : Config)
    (fuel : Nat) : Option (Except PyErr Json) × List Call :=
  let ds := resolveDs dsid cfg
  let payload := queryPayload cfg query ds
  let resp := svc.onCreate payload
  let tr0 := [Call.createQuery payload]
  if 400 ≤ resp.status then (some (.error (.upstreamError resp.status)), tr0)
  else
    match pyIndex resp.body "id" with
    | .error e => (some (.error e), tr0)
    | .ok qid =>
      let jresp := svc.onTrigger qid none
      let tr1 := tr0 ++ [Call.trigger qid none]
      if 400 ≤ jresp.status then (some (.error (.upstreamError jresp.status)), tr1)
      else
        match jresp.body with
        | .obj fields =>
          if (alist "query_result" fields).isSome then
            (some (format_query_result (.obj fields) query), tr1)
          else
            match alist "job" fields with
            | some jobObj =>
              match pyIndex jobObj "id" with
              | .error e => (some (.error e), tr1)
              | .ok jid =>
                match pollTrace (svc.onJob jid) jid 0 fuel with
                | (none, ptr) => (none, tr1 ++ ptr)
                | (some (.error e), ptr) => (some (.error e), tr1 ++ ptr)
                | (some (.ok jobResult), ptr) =>
                  let tr2 := tr1 ++ ptr
                  match pyIndex jobResult "query_result_id" with
                  | .error e => (some (.error e), tr2)
                  | .ok rid =>
                    let rresp := svc.onResult rid
                    let tr3 := tr2 ++ [Call.getResult rid]
                    if 400 ≤ rresp.status then (some (.error (.upstreamError rresp.status)), tr3)
                    else (some (format_query_result rresp.body query), tr3)
            | none =>
              (some (.error (.protocolError ("Invalid response format. Keys: " ++
                pyRepr (.arr (fields.map (fun p => Json.str p.1)))))), tr1)
        | _ => (some (.error .typeError), tr1)

/-- The job payload built by `execute_predefined_query` (line 224):
`{"parameters": parameters} if parameters else {}` — Python truthiness, so
an absent OR empty parameters mapping yields the empty payload. -/
def predefPayload (params : Option (List (String × Json))) : Json :=
  match params with
  | some ps => if ps.isEmpty then .obj [] else .obj [("parameters", .obj ps)]
  | none => .obj []

/-- `execute_predefined_query(query_id, parameters)` (redash_client.py lines
208-250): trigger the stored query with the (truthiness-filtered) parameters
payload, require a `job` key in the response, poll the job, fetch and format
its result with an empty query text.  As in `execute_query`, a non-dict
trigger body is modelled as a `typeError`. -/
def execute_predefined_query (svc : Service) (queryId : Int)
    (params : Option (List (String × Json))) (fuel : Nat) :
    Option (Except PyErr Json) × List Call :=
  let payload := predefPayload params
  let jresp := svc.onTrigger (.num queryId) (some payload)
  let tr1 := [Call.trigger (.num queryId) (some payload)]
  if 400 ≤ jresp.status then (some (.error (.upstreamError jresp.status)), tr1)
  else
    match jresp.body with
    | .obj fields =>
      match alist "job" fields with
      | none =>
        (some (.error (.protocolError ("Invalid response format: " ++ pyStr (.obj fields)))), tr1)
      | some jobObj =>
        match pyIndex jobObj "id" with
        | .error e => (some (.error e), tr1)
        | .ok jid =>
          match pollTrace (svc.onJob jid) jid 0 fuel with
          | (none, ptr) => (none, tr1 ++ ptr)
          | (some (.error e), ptr) => (some (.error e), tr1 ++ ptr)
          | (some (.ok jobResult), ptr) =>
            let tr2 := tr1 ++ ptr
            match pyIndex jobResult "query_result_id" with
            | .error e => (some (.error e), tr2)
            | .ok rid =>
              let rresp := svc.onResult rid
              let tr3 := tr2 ++ [Call.getResult rid]
              if 400 ≤ rresp.status then (some (.error (.upstreamError rresp.status)), tr3)
              else (some (format_query_result rresp.body ""), tr3)
    | _ => (some (.error .typeError), tr1)

/-- Response model of the gateway endpoints (main.py `QueryResponse`):
answer text, the executed SQL (as the JSON value placed there), and the
result data. -/
structure QueryResponse where
  answer : String
  sqlQuery : Json
  data : Json

/-- GET /data-sources (main.py lines 93-112): wrap the client result, or map
any exception to HTTP 500 with a prefixed detail text. -/
def get_data_sources (outcome : Except PyErr Json) : Except (Nat × String) Json :=
  match outcome with
  | .ok ds => .ok (.obj [("data_sources", ds)])
  | .error e => .error (500, "Failed to fetch data sources: " ++ msgOf e)

/-- POST /ask (main.py lines 114-150), parameterised by the client's
`execute_query` as a function of the SQL it is given.  `sql_query or
question` chooses the query text (empty string counts as absent); a client
exception, or a client value that is not a dict containing "query_result"
(the handler's own ValueError), maps to HTTP 500 with the message appended
to "Query execution failed: ". -/
def ask_question (exec : String → Except PyErr Json) (question : String)
    (sqlQuery : Option String) : Except (Nat × String) QueryResponse :=
  let sql := match sqlQuery with
    | some s => if s.isEmpty then question else s
    | none => question
  match exec sql with
  | .error e => .error (500, "Query execution failed: " ++ msgOf e)
  | .ok result =>
    match result with
    | .obj fs =>
      match alist "query_result" fs with
      | some qr => .ok ⟨"Here are the results from your query", .str sql, qr⟩
      | none => .error (500, "Query execution failed: " ++ msgOf (.valueError "Invalid response format from Redash"))
    | _ => .error (500, "Query execution failed: " ++ msgOf (.valueError "Invalid response format from Redash"))

/-- POST /ask/predefined/(query_id) (main.py lines 152-194), parameterised by
the client's `execute_predefined_query`.  A client exception maps to HTTP
500 with `str(e)` as the detail; a falsy `query_result` in the returned
value raises the handler's ValueError, also mapped to 500. -/
def ask_predefined_question (exec : Int → Option (List (String × Json)) → Except PyErr Json)
    (queryId : Int) (params : Option (List (String × Json))) :
    Except (Nat × String) QueryResponse :=
  match exec queryId params with
  | .error e => .error (500, msgOf e)
  | .ok result =>
    match result with
    | .obj fs =>
      let qr := (alist "query_result" fs).getD (.obj [])
      if truthy qr then
        match qr with
        | .obj qf =>
          .ok ⟨"Here are the results from your query", (alist "query" qf).getD (.str ""), qr⟩
        | _ => .error (500, msgOf (.attributeError "get"))
      else .error (500, "No query result in response")
    | _ => .error (500, msgOf (.attributeError "get"))

/-- The /ask handler's invalid-response condition (main.py line 137):
`not isinstance(result, dict) or "query_result" not in result`. -/
def askInvalidCheck (v : Json) : Bool :=
  match v with
  | .obj fs => (alist "query_result" fs).isNone
  | _ => true

/-- The value is a mapping that contains the key "query_result". -/
def hasQueryResultKey (v : Json) : Bool :=
  match v with
  | .obj fs => (alist "query_result" fs).isSome
  | _ => false

/-- A job-status response is well formed: success HTTP status and a body of
shape `(job: (status: ...))` (the status value may be any JSON). -/
def wfRespB (r : HttpResponse) : Bool :=
  decide (r.status < 400) &&
    (match pyIndex r.body "job" with
     | .ok job =>
       (match pyIndex job "status" with
        | .ok _ => true
        | .error _ => false)
     | .error _ => false)

/-- The job status reported by a response is terminal: equal to 3
(completed) or 4 (failed). -/
def terminalRespB (r : HttpResponse) : Bool :=
  match pyIndex r.body "job" with
  | .ok job =>
    (match pyIndex job "status" with
     | .ok st => jnumEq st 3 || jnumEq st 4
     | .error _ => false)
  | .error _ => false

/-- The k-th response in a job-status stream reports a terminal status. -/
def terminalAtB (f : Nat → HttpResponse) (k : Nat) : Bool :=
  terminalRespB (f k)

/-- The outcome is a raised ProtocolError (a contract-shape `Exception`). -/
def isProtocolErr (o : Except PyErr Json) : Bool :=
  match o with
  | .error (.protocolError _) => true
  | _ => false

/-- The outcome is a raised UpstreamError (non-success HTTP status). -/
def isUpstreamErr (o : Except PyErr Json) : Bool :=
  match o with
  | .error (.upstreamError _) => true
  | _ => false

/-- A recorded call belongs to the job-polling protocol: a job-status fetch
or a sleep. -/
def isPolling (c : Call) : Bool :=
  match c with
  | .getJob _ => true
  | .sleep _ => true
  | _ => false

/-- Modelled from the spec: "Fails with ProtocolError if no result payload
can be located at either nesting level" (spec section 4.3, claim C2).  A
payload counts as located under the result key when the key is present with
a non-empty (truthy) value, and as located at the outer level when the
response itself is a non-empty mapping. -/
def payloadLocatableSpec (fields : List (String × Json)) : Bool :=
  (match alist "query_result" fields with
   | some v => truthy v
   | none => false) || !fields.isEmpty

/-- The selected payload is shaped so that normalization can complete: it is
a mapping whose "data" entry, after the `.get("data", \x7b\x7d)` default, is
itself a mapping. -/
def wellShapedPayload (v : Json) : Bool :=
  match v with
  | .obj qf =>
    (match (alist "data" qf).getD (.obj []) with
     | .obj _ => true
     | _ => false)
  | _ => false

end RedashMCP

namespace RedashMCP

/-- A successful response whose job status equals 3 makes the polling loop
return the job object. -/
theorem pollStep_completed (r : HttpResponse) (job : Json)
    (h1 : r.status < 400)
    (h2 : pyIndex r.body "job" = .ok job)
    (h3 : pyIndex job "status" = .ok (.num 3)) :
    pollStep r = .ok (some job) := by
  have hlt : ¬ 400 ≤ r.status := by omega
  simp [pollStep, hlt, h2, h3, jnumEq]

/-- A successful response whose job status equals 4 makes the polling loop
raise QueryExecutionError with the job's error value (or the fallback). -/
theorem pollStep_failed (r : HttpResponse) (jf : List (String × Json))
    (h1 : r.status < 400)
    (h2 : pyIndex r.body "job" = .ok (.obj jf))
    (h3 : pyIndex (.obj jf) "status" = .ok (.num 4)) :
    pollStep r = .error (.queryExecutionError ((alist "error" jf).getD (.str "Unknown error"))) := by
  have hlt : ¬ 400 ≤ r.status := by omega
  simp [pollStep, hlt, h2, h3, jnumEq]

/-- If the first n fetches all continue and fetch n exits, the polling loop
exits at fetch n with that outcome, after n sleeps of one interval each. -/
theorem pollTrace_exit (f : Nat → HttpResponse) (jid : Json) :
    ∀ (n t fuel : Nat), n < fuel →
      (∀ k, k < n → pollStep (f (t + k)) = .ok none) →
      ((∀ e, pollStep (f (t + n)) = .error e →
          pollTrace f jid t fuel = (some (.error e), jobCalls jid n))
        ∧ (∀ job, pollStep (f (t + n)) = .ok (some job) →
          pollTrace f jid t fuel = (some (.ok job), jobCalls jid n))) := by
  intro n
  induction n with
  | zero =>
    intro t fuel hfuel _
    match fuel, hfuel with
    | fuel + 1, _ =>
      refine ⟨fun e he => ?_, fun job hj => ?_⟩
      · rw [Nat.add_zero] at he
        simp [pollTrace, he, jobCalls]
      · rw [Nat.add_zero] at hj
        simp [pollTrace, hj, jobCalls]
  | succ n ih =>
    intro t fuel hfuel hk
    match fuel, hfuel with
    | fuel + 1, hfuel =>
      have h0 : pollStep (f t) = .ok none := by
        have := hk 0 (Nat.succ_pos n)
        simpa using this
      have hk' : ∀ k, k < n → pollStep (f (t + 1 + k)) = .ok none := by
        intro k hlt
        have h := hk (k + 1) (by omega)
        have heq : t + (k + 1) = t + 1 + k := by omega
        rw [heq] at h
        exact h
      have hn' : t + (n + 1) = t + 1 + n := by omega
      have ih' := ih (t + 1) fuel (by omega) hk'
      have hcalls : jobCalls jid (n + 1) =
          Call.getJob jid :: Call.sleep POLL_INTERVAL :: jobCalls jid n := by
        simp [jobCalls, List.replicate_succ]
      refine ⟨fun e he => ?_, fun job hj => ?_⟩
      · rw [hn'] at he
        have hrec := ih'.1 e he
        simp [pollTrace, h0, hrec, hcalls]
      · rw [hn'] at hj
        have hrec := ih'.2 job hj
        simp [pollTrace, h0, hrec, hcalls]

/-- A stream on which every fetch continues makes the polling loop consume
all its fuel, alternating fetches and unit sleeps, and never exit. -/
theorem pollTrace_never (f : Nat → HttpResponse) (jid : Json)
    (hc : ∀ k, pollStep (f k) = .ok none) :
    ∀ (fuel t : Nat), pollTrace f jid t fuel =
      (none, (List.replicate fuel [Call.getJob jid, Call.sleep POLL_INTERVAL]).flatten) := by
  intro fuel
  induction fuel with
  | zero => intro t; simp [pollTrace]
  | succ fuel ih =>
    intro t
    simp [pollTrace, hc t, ih (t + 1), List.replicate_succ]

/-- A well-formed non-terminal response makes the polling loop continue. -/
theorem pollStep_continue_of_wf (r : HttpResponse)
    (hw : wfRespB r = true) (ht : terminalRespB r = false) :
    pollStep r = .ok none := by
  simp only [wfRespB, Bool.and_eq_true, decide_eq_true_eq] at hw
  obtain ⟨hs, hshape⟩ := hw
  have hlt : ¬ 400 ≤ r.status := by omega
  rcases hjob : pyIndex r.body "job" with e | job
  · rw [hjob] at hshape; simp at hshape
  · rcases hst : pyIndex job "status" with e | st
    · simp [hjob, hst] at hshape
    · simp only [terminalRespB, hjob, hst, Bool.or_eq_false_iff] at ht
      simp [pollStep, hlt, hjob, hst, ht.1, ht.2]

/-- A well-formed terminal response makes the polling loop exit. -/
theorem pollStep_exit_of_terminal (r : HttpResponse)
    (hw : wfRespB r = true) (ht : terminalRespB r = true) :
    pollStep r ≠ .ok none := by
  simp only [wfRespB, Bool.and_eq_true, decide_eq_true_eq] at hw
  obtain ⟨hs, hshape⟩ := hw
  have hlt : ¬ 400 ≤ r.status := by omega
  rcases hjob : pyIndex r.body "job" with e | job
  · rw [hjob] at hshape; simp at hshape
  · rcases hst : pyIndex job "status" with e | st
    · simp [hjob, hst] at hshape
    · simp only [terminalRespB, hjob, hst, Bool.or_eq_true] at ht
      rcases ht with h3 | h4
      · simp [pollStep, hlt, hjob, hst, h3]
      · rcases h3 : jnumEq st 3 with _ | _
        · have hobj : ∃ jf, job = Json.obj jf := by
            rcases job with _ | b | n | s | xs | jf
            · simp [pyIndex] at hst
            · simp [pyIndex] at hst
            · simp [pyIndex] at hst
            · simp [pyIndex] at hst
            · simp [pyIndex] at hst
            · exact ⟨jf, rfl⟩
          obtain ⟨jf, rfl⟩ := hobj
          simp [pollStep, hlt, hjob, hst, h3, h4]
        · simp [pollStep, hlt, hjob, hst, h3]
end RedashMCP

namespace RedashMCP

/-- Claim C3: for every sequence of job-status responses, the polling loop
exits returning the job object (carrying whatever result identifier the
service reported) as soon as a status equal to completed (3) is observed,
and raises QueryExecutionError carrying the service-reported error value —
or "Unknown error" when that field is absent — as soon as a status equal to
failed (4) is observed.  Exiting at fetch n performs exactly n sleeps, so
completion observed on the first fetch (n = 0) performs no sleep at all,
which the last conjunct states explicitly: the trace is then a single
job-status fetch. -/
theorem c3_poll_terminal_transitions :
    (∀ (f : Nat → HttpResponse) (jid job : Json) (n m : Nat),
      (∀ k, k < n → pollStep (f k) = .ok none) →
      (f n).status < 400 →
      pyIndex (f n).body "job" = .ok job →
      pyIndex job "status" = .ok (.num 3) →
      pollTrace f jid 0 (n + 1 + m) = (some (.ok job), jobCalls jid n))
  ∧ (∀ (f : Nat → HttpResponse) (jid : Json) (jf : List (String × Json)) (n m : Nat),
      (∀ k, k < n → pollStep (f k) = .ok none) →
      (f n).status < 400 →
      pyIndex (f n).body "job" = .ok (.obj jf) →
      pyIndex (.obj jf) "status" = .ok (.num 4) →
      pollTrace f jid 0 (n + 1 + m) =
        (some (.error (.queryExecutionError ((alist "error" jf).getD (.str "Unknown error")))),
         jobCalls jid n))
  ∧ (∀ jid : Json, jobCalls jid 0 = [Call.getJob jid]) := by
  refine ⟨?_, ?_, ?_⟩
  · intro f jid job n m hcont h1 h2 h3
    have hstep : pollStep (f (0 + n)) = .ok (some job) := by
      rw [Nat.zero_add]
      exact pollStep_completed (f n) job h1 h2 h3
    have hcont' : ∀ k, k < n → pollStep (f (0 + k)) = .ok none := by
      intro k hk; rw [Nat.zero_add]; exact hcont k hk
    exact (pollTrace_exit f jid n 0 (n + 1 + m) (by omega) hcont').2 job hstep
  · intro f jid jf n m hcont h1 h2 h3
    have hstep : pollStep (f (0 + n)) =
        .error (.queryExecutionError ((alist "error" jf).getD (.str "Unknown error"))) := by
      rw [Nat.zero_add]
      exact pollStep_failed (f n) jf h1 h2 h3
    have hcont' : ∀ k, k < n → pollStep (f (0 + k)) = .ok none := by
      intro k hk; rw [Nat.zero_add]; exact hcont k hk
    exact (pollTrace_exit f jid n 0 (n + 1 + m) (by omega) hcont').1 _ hstep
  · intro jid
    simp [jobCalls]

/-- Witness for C3: a stream that reports completed (with result id 99) on
the first fetch exits at once with that job object, with no sleep in the
trace; a stream that reports failed with an error message exits raising
QueryExecutionError carrying that message. -/
theorem c3_poll_terminal_transitions_witness :
    pollTrace (fun _ => ⟨200, .obj [("job", .obj [("status", .num 3), ("query_result_id", .num 99)])]⟩)
        (.str "j") 0 1 =
      (some (.ok (.obj [("status", .num 3), ("query_result_id", .num 99)])), [Call.getJob (.str "j")])
  ∧ pollTrace (fun _ => ⟨200, .obj [("job", .obj [("status", .num 4), ("error", .str "boom")])]⟩)
        (.str "j") 0 1 =
      (some (.error (.queryExecutionError (.str "boom"))), [Call.getJob (.str "j")]) := by
  constructor
  · have h := c3_poll_terminal_transitions.1
      (fun _ => ⟨200, .obj [("job", .obj [("status", .num 3), ("query_result_id", .num 99)])]⟩)
      (.str "j") (.obj [("status", .num 3), ("query_result_id", .num 99)]) 0 0
      (fun k hk => absurd hk (Nat.not_lt_zero k)) (by decide) rfl rfl
    simpa [jobCalls] using h
  · have h := c3_poll_terminal_transitions.2.1
      (fun _ => ⟨200, .obj [("job", .obj [("status", .num 4), ("error", .str "boom")])]⟩)
      (.str "j") [("status", .num 4), ("error", .str "boom")] 0 0
      (fun k hk => absurd hk (Nat.not_lt_zero k)) (by decide) rfl rfl
    simpa [jobCalls, alist] using h

/-- Claim C4: the polling loop sleeps a fixed POLL_INTERVAL = 1 between
consecutive status fetches and has no attempt bound and no timeout: over any
well-formed status stream it terminates exactly when some fetch reports a
terminal status (3 or 4), and on a stream that never reports a terminal
status it never exits — consuming any amount of fuel as an endless
alternation of one fetch and one unit sleep. -/
theorem c4_poll_unbounded_wait (f : Nat → HttpResponse) (jid : Json)
    (hwf : ∀ k, wfRespB (f k) = true) :
    ((∃ k, terminalAtB f k = true) ↔ (∃ fuel, ((pollTrace f jid 0 fuel).1.isSome = true)))
  ∧ ((∀ k, terminalAtB f k = false) →
      ∀ fuel, pollTrace f jid 0 fuel =
        (none, (List.replicate fuel [Call.getJob jid, Call.sleep POLL_INTERVAL]).flatten))
  ∧ POLL_INTERVAL = 1 := by
  have hnever : (∀ k, terminalAtB f k = false) →
      ∀ fuel, pollTrace f jid 0 fuel =
        (none, (List.replicate fuel [Call.getJob jid, Call.sleep POLL_INTERVAL]).flatten) := by
    intro hall fuel
    exact pollTrace_never f jid
      (fun k => pollStep_continue_of_wf (f k) (hwf k) (hall k)) fuel 0
  refine ⟨⟨?_, ?_⟩, hnever, rfl⟩
  · intro hex
    have hfind := Nat.find_spec hex
    set n := Nat.find hex with hn
    have hbefore : ∀ k, k < n → pollStep (f k) = .ok none := by
      intro k hk
      have : ¬ terminalAtB f k = true := Nat.find_min hex hk
      exact pollStep_continue_of_wf (f k) (hwf k) (Bool.eq_false_iff.mpr this)
    have hbefore' : ∀ k, k < n → pollStep (f (0 + k)) = .ok none := by
      intro k hk; rw [Nat.zero_add]; exact hbefore k hk
    refine ⟨n + 1, ?_⟩
    have hexit := pollStep_exit_of_terminal (f n) (hwf n) hfind
    rcases hstep : pollStep (f (0 + n)) with e | o
    · have := (pollTrace_exit f jid n 0 (n + 1) (by omega) hbefore').1 e hstep
      simp [this]
    · rcases o with _ | job
      · rw [Nat.zero_add] at hstep; exact absurd hstep hexit
      · have := (pollTrace_exit f jid n 0 (n + 1) (by omega) hbefore').2 job hstep
        simp [this]
  · intro hfuel
    by_contra hno
    push_neg at hno
    have hall : ∀ k, terminalAtB f k = false := by
      intro k
      exact Bool.eq_false_iff.mpr (hno k)
    obtain ⟨fuel, hs⟩ := hfuel
    rw [hnever hall fuel] at hs
    simp at hs

/-- Witness for C4: on the constant stream that always reports the
non-terminal status 1, the polling loop never exits, and its trace for any
fuel is the endless fetch/sleep alternation. -/
theorem c4_poll_unbounded_wait_witness :
    ((∃ k, terminalAtB (fun _ => ⟨200, .obj [("job", .obj [("status", .num 1)])]⟩) k = true) ↔
      (∃ fuel, ((pollTrace (fun _ => ⟨200, .obj [("job", .obj [("status", .num 1)])]⟩)
          (.str "jw") 0 fuel).1.isSome = true)))
  ∧ ((∀ k, terminalAtB (fun _ => ⟨200, .obj [("job", .obj [("status", .num 1)])]⟩) k = false) →
      ∀ fuel, pollTrace (fun _ => ⟨200, .obj [("job", .obj [("status", .num 1)])]⟩)
          (.str "jw") 0 fuel =
        (none, (List.replicate fuel [Call.getJob (.str "jw"), Call.sleep POLL_INTERVAL]).flatten))
  ∧ POLL_INTERVAL = 1 :=
  c4_poll_unbounded_wait (fun _ => ⟨200, .obj [("job", .obj [("status", .num 1)])]⟩)
    (.str "jw") (fun _ => rfl)

end RedashMCP

namespace RedashMCP

/-- Counterexample to claim C1: for the empty raw mapping the normalizer
does not return a QueryResult with default fields — the empty dict is falsy,
so `_format_query_result` raises instead ("No query result in response"),
i.e. the call fails rather than substituting defaults. -/
theorem c1_counterexample_empty_raw :
    format_query_result (.obj []) "SELECT 1" =
      .error (.protocolError "No query result in response")
  ∧ (format_query_result (.obj []) "SELECT 1").isOk = false :=
  ⟨rfl, rfl⟩

/-- Claim C1 (amended): for the raw service response given by the empty
mapping the normalizer raises ProtocolError ("No query result in response")
— an empty payload is treated as missing; defaults (empty columns, empty
rows, runtime 0) are substituted for missing fields only when a non-empty
payload is present, e.g. for the one-field raw result containing only an
id. -/
theorem c1_empty_raw_result (query : String) (idv : Json) :
    format_query_result (.obj []) query =
      .error (.protocolError "No query result in response")
  ∧ format_query_result (.obj [("id", idv)]) query =
      .ok (.obj [("query_result", .obj
        [ ("id", idv), ("query", .str query),
          ("data", .obj [("columns", .arr []), ("rows", .arr [])]),
          ("data_source_id", .null), ("runtime", .num 0), ("retrieved_at", .null) ])]) := by
  constructor
  · rfl
  · by_cases h : query = ""
    · subst h; rfl
    · have hbase : format_query_result (.obj [("id", idv)]) query =
          .ok (.obj [("query_result", .obj
            [ ("id", idv),
              ("query", if query = "" then Json.str "" else .str query),
              ("data", .obj [("columns", .arr []), ("rows", .arr [])]),
              ("data_source_id", .null), ("runtime", .num 0), ("retrieved_at", .null) ])]) := rfl
      rw [hbase, if_neg h]

/-- Counterexample to claim C2: for the raw mapping whose "query_result"
entry is null, a result payload is locatable in the claim's sense (the
response itself is a non-empty mapping), yet `_format_query_result` raises
ProtocolError — `dict.get` does not fall back to the response itself when
the key is present with an empty value. -/
theorem c2_counterexample_null_payload :
    payloadLocatableSpec [("query_result", .null)] = true
  ∧ format_query_result (.obj [("query_result", .null)]) "q" =
      .error (.protocolError "No query result in response") :=
  ⟨rfl, rfl⟩

/-- Claim C2 (amended): the normalizer fails with ProtocolError exactly when
the selected payload — the value under "query_result" when that key is
present, otherwise the response itself — is empty (falsy); there is no
fallback to the outer response when the key is present with an empty value.
It returns a normalized QueryResult exactly when the selected payload is
additionally a mapping whose "data" entry (after the empty-dict default) is
a mapping; a truthy payload of any other shape fails with an attribute
error, not with ProtocolError. -/
theorem c2_protocol_error_iff (fields : List (String × Json)) (query : String) :
    (isProtocolErr (format_query_result (.obj fields) query) = true ↔
      truthy (selectPayload fields) = false)
  ∧ ((format_query_result (.obj fields) query).isOk = true ↔
      (truthy (selectPayload fields) && wellShapedPayload (selectPayload fields)) = true) := by
  simp only [format_query_result, formatDict]
  rcases hsel : selectPayload fields with _ | b | n | s | xs | qf
  · simp [isProtocolErr, wellShapedPayload, truthy, Except.isOk, Except.toBool]
  · cases htr : truthy (Json.bool b) <;>
      simp [htr, isProtocolErr, wellShapedPayload, Except.isOk, Except.toBool]
  · cases htr : truthy (Json.num n) <;>
      simp [htr, isProtocolErr, wellShapedPayload, Except.isOk, Except.toBool]
  · cases htr : truthy (Json.str s) <;>
      simp [htr, isProtocolErr, wellShapedPayload, Except.isOk, Except.toBool]
  · cases htr : truthy (Json.arr xs) <;>
      simp [htr, isProtocolErr, wellShapedPayload, Except.isOk, Except.toBool]
  · cases htr : truthy (Json.obj qf)
    · simp [htr, isProtocolErr, wellShapedPayload, Except.isOk, Except.toBool]
    · rcases hdv : (alist "data" qf).getD (.obj []) with _ | b | n | s | xs | df <;>
        simp [htr, hdv, isProtocolErr, wellShapedPayload, Except.isOk, Except.toBool]

/-- Normalizing a raw result already of the normalized shape reproduces its
fields, with the query text overriding the stored query only when it is
non-empty (Python `query or ...`). -/
theorem format_query_result_normalized (idv qv cv rv dsv rtv rav : Json) (query : String) :
    format_query_result (.obj [("query_result", .obj
      [ ("id", idv), ("query", qv),
        ("data", .obj [("columns", cv), ("rows", rv)]),
        ("data_source_id", dsv), ("runtime", rtv), ("retrieved_at", rav) ])]) query =
    .ok (.obj [("query_result", .obj
      [ ("id", idv), ("query", if query = "" then qv else .str query),
        ("data", .obj [("columns", cv), ("rows", rv)]),
        ("data_source_id", dsv), ("runtime", rtv), ("retrieved_at", rav) ])]) := rfl

/-- Claim C8: result normalization is idempotent — whenever
`_format_query_result` succeeds on a raw result, feeding its output back in
with the same query text returns that output unchanged. -/
theorem c8_format_idempotent (result : Json) (query : String) (out : Json)
    (h : format_query_result result query = .ok out) :
    format_query_result out query = .ok out := by
  rcases result with _ | b | n | s | xs | fields
  · simp [format_query_result] at h
  · simp [format_query_result] at h
  · simp [format_query_result] at h
  · simp [format_query_result] at h
  · simp [format_query_result] at h
  · simp only [format_query_result, formatDict] at h
    split at h
    · split at h
      · split at h
        · rw [Except.ok.injEq] at h
          subst h
          by_cases hq : query = ""
          · subst hq
            rw [format_query_result_normalized]
            simp
          · rw [format_query_result_normalized]
            simp [hq]
        · exact absurd h (by simp)
      · exact absurd h (by simp)
    · split at h <;> exact absurd h (by simp)

/-- Witness for C8: normalizing the already-normalized output of the raw
result with only an id, using the same query text, yields it unchanged. -/
theorem c8_format_idempotent_witness :
    format_query_result (.obj [("query_result", .obj
      [ ("id", .num 1), ("query", .str "q"),
        ("data", .obj [("columns", .arr []), ("rows", .arr [])]),
        ("data_source_id", .null), ("runtime", .num 0), ("retrieved_at", .null) ])]) "q" =
    .ok (.obj [("query_result", .obj
      [ ("id", .num 1), ("query", .str "q"),
        ("data", .obj [("columns", .arr []), ("rows", .arr [])]),
        ("data_source_id", .null), ("runtime", .num 0), ("retrieved_at", .null) ])]) :=
  c8_format_idempotent (.obj [("query_result", .obj [("id", .num 1)])]) "q" _ rfl

end RedashMCP

namespace RedashMCP

/-- Claim C9: every failure raised by the query client — regardless of which
of the three kinds it is — is surfaced by each gateway endpoint as the same
HTTP status 500, with the originating failure's message as the detail text
(prefixed exactly as in the handlers); no distinction between the failure
kinds reaches the status code. -/
theorem c9_gateway_uniform_500 (e : PyErr) (question : String) (sqlQuery : Option String)
    (queryId : Int) (params : Option (List (String × Json))) :
    get_data_sources (.error e) = .error (500, "Failed to fetch data sources: " ++ msgOf e)
  ∧ ask_question (fun _ => .error e) question sqlQuery =
      .error (500, "Query execution failed: " ++ msgOf e)
  ∧ ask_predefined_question (fun _ _ => .error e) queryId params = .error (500, msgOf e) :=
  ⟨rfl, rfl, rfl⟩

/-- Counterexample to claim C6's parameters clause: calling
`execute_predefined_query` with a present (but empty) parameters mapping
posts the empty payload — `if parameters` is false for an empty dict, so
the payload is not the wrapped parameters object the claim requires for
every present mapping. -/
theorem c6_counterexample_empty_params :
    (execute_predefined_query
        ⟨fun _ => ⟨200, .null⟩, fun _ _ => ⟨200, .obj []⟩,
         fun _ _ => ⟨200, .null⟩, fun _ => ⟨200, .null⟩⟩ 5 (some []) 1).2.head? =
      some (Call.trigger (.num 5) (some (.obj [])))
  ∧ Json.obj [] ≠ Json.obj [("parameters", .obj [])] := by
  exact ⟨rfl, by simp⟩

/-- Claim C6 (amended): a trigger response that is a mapping without a "job"
key — such as the empty mapping — makes `execute_predefined_query` fail
with ProtocolError (predefined queries are assumed to always be
asynchronous), and the job payload it posts wraps the parameters mapping
only when that mapping is present and non-empty; an absent or empty
parameters mapping results in the empty payload. -/
theorem c6_predefined_no_job_protocol_error :
    (∀ (svc : Service) (queryId : Int) (params : Option (List (String × Json)))
        (fuel s : Nat) (fields : List (String × Json)),
      svc.onTrigger (.num queryId) (some (predefPayload params)) = ⟨s, .obj fields⟩ →
      s < 400 →
      alist "job" fields = none →
      execute_predefined_query svc queryId params fuel =
        (some (.error (.protocolError ("Invalid response format: " ++ pyStr (.obj fields)))),
         [Call.trigger (.num queryId) (some (predefPayload params))]))
  ∧ (∀ (svc : Service) (queryId : Int) (params : Option (List (String × Json))) (fuel : Nat),
      (execute_predefined_query svc queryId params fuel).2.head? =
        some (Call.trigger (.num queryId)
          (some (match params with
                 | some ps => if ps.isEmpty then Json.obj [] else
                     Json.obj [("parameters", Json.obj ps)]
                 | none => Json.obj [])))) := by
  constructor
  · intro svc queryId params fuel s fields htrig hs hnojob
    have hns : ¬ 400 ≤ s := by omega
    simp only [execute_predefined_query, htrig, hns, if_false, hnojob]
  · intro svc queryId params fuel
    have hpay : (match params with
        | some ps => if ps.isEmpty then Json.obj [] else Json.obj [("parameters", Json.obj ps)]
        | none => Json.obj []) = predefPayload params := by
      cases params <;> rfl
    rw [hpay]
    simp only [execute_predefined_query]
    repeat' first | rfl | split

/-- Witness for C6: with a service whose trigger response is the empty
mapping, `execute_predefined_query` (no parameters) fails with the
ProtocolError embedding the response, after exactly the one trigger call
with the empty payload. -/
theorem c6_predefined_no_job_protocol_error_witness :
    execute_predefined_query
        ⟨fun _ => ⟨200, .null⟩, fun _ _ => ⟨200, .obj []⟩,
         fun _ _ => ⟨200, .null⟩, fun _ => ⟨200, .null⟩⟩ 7 none 1 =
      (some (.error (.protocolError ("Invalid response format: " ++ pyStr (.obj [])))),
       [Call.trigger (.num 7) (some (predefPayload none))]) :=
  c6_predefined_no_job_protocol_error.1
    ⟨fun _ => ⟨200, .null⟩, fun _ _ => ⟨200, .obj []⟩,
     fun _ _ => ⟨200, .null⟩, fun _ => ⟨200, .null⟩⟩ 7 none 1 200 []
    rfl (by decide) rfl

end RedashMCP

namespace RedashMCP

/-- Claim C5: when the trigger response synchronously contains
`(query_result: (id: 42, data: (columns: [], rows: [[1]])))`,
`execute_query "SELECT 1"` returns the normalized QueryResult with result
identifier 42 and rows [[1]], and the whole trace is the create call and the
trigger call — no job-status fetch and no sleep occur (the job and result
oracles are arbitrary and never consulted). -/
theorem c5_immediate_result (cfg : Config) (jobF : Json → Nat → HttpResponse)
    (resF : Json → HttpResponse) (cs ts : Nat) (cf : List (String × Json)) (qid : Json)
    (fuel : Nat) (hcs : cs < 400) (hid : alist "id" cf = some qid) (hts : ts < 400) :
    execute_query
        ⟨fun _ => ⟨cs, .obj cf⟩,
         fun _ _ => ⟨ts, .obj [("query_result", .obj
           [("id", .num 42),
            ("data", .obj [("columns", .arr []), ("rows", .arr [.arr [.num 1]])])])]⟩,
         jobF, resF⟩ "SELECT 1" none cfg fuel =
      (some (.ok (.obj [("query_result", .obj
        [ ("id", .num 42), ("query", .str "SELECT 1"),
          ("data", .obj [("columns", .arr []), ("rows", .arr [.arr [.num 1]])]),
          ("data_source_id", .null), ("runtime", .num 0), ("retrieved_at", .null) ])])),
       [Call.createQuery (queryPayload cfg "SELECT 1" cfg.dataSourceId),
        Call.trigger qid none])
  ∧ ([Call.createQuery (queryPayload cfg "SELECT 1" cfg.dataSourceId),
      Call.trigger qid none].all fun c => !isPolling c) = true := by
  have hncs : ¬ 400 ≤ cs := by omega
  have hnts : ¬ 400 ≤ ts := by omega
  constructor
  · simp only [execute_query, hncs, if_false, pyIndex, hid]
    simp [resolveDs, format_query_result, formatDict, selectPayload, alist, truthy, hnts]
  · rfl

/-- Witness for C5: a concrete run of the immediate-result scenario with a
fixed configuration and create response. -/
theorem c5_immediate_result_witness :
    execute_query
        ⟨fun _ => ⟨200, .obj [("id", .num 7)]⟩,
         fun _ _ => ⟨200, .obj [("query_result", .obj
           [("id", .num 42),
            ("data", .obj [("columns", .arr []), ("rows", .arr [.arr [.num 1]])])])]⟩,
         fun _ _ => ⟨200, .null⟩, fun _ => ⟨200, .null⟩⟩ "SELECT 1" none
        ⟨6, fun _ => "d41d8cd98f"⟩ 0 =
      (some (.ok (.obj [("query_result", .obj
        [ ("id", .num 42), ("query", .str "SELECT 1"),
          ("data", .obj [("columns", .arr []), ("rows", .arr [.arr [.num 1]])]),
          ("data_source_id", .null), ("runtime", .num 0), ("retrieved_at", .null) ])])),
       [Call.createQuery (queryPayload ⟨6, fun _ => "d41d8cd98f"⟩ "SELECT 1"
          (Config.dataSourceId ⟨6, fun _ => "d41d8cd98f"⟩)),
        Call.trigger (.num 7) none])
  ∧ ([Call.createQuery (queryPayload ⟨6, fun _ => "d41d8cd98f"⟩ "SELECT 1"
        (Config.dataSourceId ⟨6, fun _ => "d41d8cd98f"⟩)),
      Call.trigger (.num 7) none].all fun c => !isPolling c) = true :=
  c5_immediate_result ⟨6, fun _ => "d41d8cd98f"⟩ (fun _ _ => ⟨200, .null⟩)
    (fun _ => ⟨200, .null⟩) 200 200 [("id", .num 7)] (.num 7) 0
    (by decide) rfl (by decide)

/-- A successful normalization always wraps its output as a one-field
mapping under "query_result". -/
theorem format_ok_wrapped (r : Json) (q : String) (out : Json)
    (h : format_query_result r q = .ok out) :
    hasQueryResultKey out = true ∧ askInvalidCheck out = false := by
  rcases r with _ | b | n | s | xs | fields
  · simp [format_query_result] at h
  · simp [format_query_result] at h
  · simp [format_query_result] at h
  · simp [format_query_result] at h
  · simp [format_query_result] at h
  · simp only [format_query_result, formatDict] at h
    split at h
    · split at h
      · split at h
        · rw [Except.ok.injEq] at h
          subst h
          exact ⟨rfl, rfl⟩
        · exact absurd h (by simp)
      · exact absurd h (by simp)
    · split at h <;> exact absurd h (by simp)

/-- The gateway outcome is a success (no HTTPException was raised). -/
def gatewayOk (o : Except (Nat × String) QueryResponse) : Bool :=
  match o with
  | .ok _ => true
  | .error _ => false

/-- A client value wrapped under "query_result" passes the /ask handler's
format check and produces a successful response. -/
theorem ask_ok_of_wrapped (v : Json) (q : String)
    (hk : hasQueryResultKey v = true) :
    gatewayOk (ask_question (fun _ => .ok v) q none) = true := by
  rcases v with _ | b | n | s | xs | fs <;> simp [hasQueryResultKey] at hk
  rcases hopt : alist "query_result" fs with _ | qr
  · rw [hopt] at hk; simp at hk
  · simp [ask_question, gatewayOk, hopt]

/-- Claim C10: every value returned successfully by `execute_query` is a
mapping containing the key "query_result", so the /ask handler's
invalid-response check (main.py line 137) is false on it — the "Invalid
response format from Redash" ValueError is unreachable after a successful
call — and the handler succeeds on such a value. -/
theorem c10_success_always_wrapped (svc : Service) (query : String) (dsid : Option Int)
    (cfg : Config) (fuel : Nat) (v : Json) (tr : List Call)
    (h : execute_query svc query dsid cfg fuel = (some (.ok v), tr)) :
    hasQueryResultKey v = true ∧ askInvalidCheck v = false
  ∧ gatewayOk (ask_question (fun _ => .ok v) query none) = true := by
  have hfmt : ∃ r, format_query_result r query = .ok v := by
    simp only [execute_query] at h
    split at h
    · simp at h
    · split at h
      · simp at h
      · split at h
        · simp at h
        · split at h
          · split at h
            · rw [Prod.mk.injEq, Option.some.injEq] at h
              exact ⟨_, h.1⟩
            · split at h
              · split at h
                · simp at h
                · split at h
                  · simp at h
                  · simp at h
                  · split at h
                    · simp at h
                    · split at h
                      · simp at h
                      · rw [Prod.mk.injEq, Option.some.injEq] at h
                        exact ⟨_, h.1⟩
              · simp at h
          · simp at h
  obtain ⟨r, hr⟩ := hfmt
  obtain ⟨hk, hc⟩ := format_ok_wrapped r query v hr
  exact ⟨hk, hc, ask_ok_of_wrapped v query hk⟩

/-- Witness for C10: the concrete immediate-result run returns a value on
which the wrapped-key property and the handler checks all hold. -/
theorem c10_success_always_wrapped_witness :
    hasQueryResultKey (.obj [("query_result", .obj
      [ ("id", .num 42), ("query", .str "SELECT 1"),
        ("data", .obj [("columns", .arr []), ("rows", .arr [.arr [.num 1]])]),
        ("data_source_id", .null), ("runtime", .num 0), ("retrieved_at", .null) ])]) = true
  ∧ askInvalidCheck (.obj [("query_result", .obj
      [ ("id", .num 42), ("query", .str "SELECT 1"),
        ("data", .obj [("columns", .arr []), ("rows", .arr [.arr [.num 1]])]),
        ("data_source_id", .null), ("runtime", .num 0), ("retrieved_at", .null) ])]) = false
  ∧ gatewayOk (ask_question (fun _ => .ok (.obj [("query_result", .obj
      [ ("id", .num 42), ("query", .str "SELECT 1"),
        ("data", .obj [("columns", .arr []), ("rows", .arr [.arr [.num 1]])]),
        ("data_source_id", .null), ("runtime", .num 0), ("retrieved_at", .null) ])]))
      "SELECT 1" none) = true :=
  c10_success_always_wrapped
    ⟨fun _ => ⟨200, .obj [("id", .num 7)]⟩,
     fun _ _ => ⟨200, .obj [("query_result", .obj
       [("id", .num 42),
        ("data", .obj [("columns", .arr []), ("rows", .arr [.arr [.num 1]])])])]⟩,
     fun _ _ => ⟨200, .null⟩, fun _ => ⟨200, .null⟩⟩ "SELECT 1" none
    ⟨6, fun _ => "d41d8cd98f"⟩ 0 _ _ rfl

end RedashMCP

namespace RedashMCP

/-- A response with a non-success HTTP status makes the polling loop raise
UpstreamError (`raise_for_status`). -/
theorem pollStep_http (r : HttpResponse) (h : 400 ≤ r.status) :
    pollStep r = .error (.upstreamError r.status) := by
  simp [pollStep, h]

/-- Claim C7: `execute_query` fails with UpstreamError whenever any of its
HTTP steps — query creation, execution trigger, any job poll, or the result
fetch — returns a non-success status (each case assuming the earlier steps
were well formed), and fails with ProtocolError when the trigger response is
a mapping with neither an immediate "query_result" nor a "job" handle; the
ProtocolError outcome is distinguishable from every UpstreamError outcome. -/
theorem c7_execute_query_error_taxonomy :
    (∀ (svc : Service) (query : String) (dsid : Option Int) (cfg : Config) (fuel : Nat),
      400 ≤ (svc.onCreate (queryPayload cfg query (resolveDs dsid cfg))).status →
      (execute_query svc query dsid cfg fuel).1 =
        some (.error (.upstreamError
          (svc.onCreate (queryPayload cfg query (resolveDs dsid cfg))).status)))
  ∧ (∀ (svc : Service) (query : String) (dsid : Option Int) (cfg : Config) (fuel : Nat)
        (qid : Json),
      (svc.onCreate (queryPayload cfg query (resolveDs dsid cfg))).status < 400 →
      pyIndex (svc.onCreate (queryPayload cfg query (resolveDs dsid cfg))).body "id" = .ok qid →
      400 ≤ (svc.onTrigger qid none).status →
      (execute_query svc query dsid cfg fuel).1 =
        some (.error (.upstreamError (svc.onTrigger qid none).status)))
  ∧ (∀ (svc : Service) (query : String) (dsid : Option Int) (cfg : Config)
        (qid jobObj jid : Json) (tf : List (String × Json)) (n m : Nat),
      (svc.onCreate (queryPayload cfg query (resolveDs dsid cfg))).status < 400 →
      pyIndex (svc.onCreate (queryPayload cfg query (resolveDs dsid cfg))).body "id" = .ok qid →
      (svc.onTrigger qid none).status < 400 →
      (svc.onTrigger qid none).body = .obj tf →
      alist "query_result" tf = none →
      alist "job" tf = some jobObj →
      pyIndex jobObj "id" = .ok jid →
      (∀ k, k < n → pollStep (svc.onJob jid k) = .ok none) →
      400 ≤ (svc.onJob jid n).status →
      (execute_query svc query dsid cfg (n + 1 + m)).1 =
        some (.error (.upstreamError (svc.onJob jid n).status)))
  ∧ (∀ (svc : Service) (query : String) (dsid : Option Int) (cfg : Config)
        (qid jobObj jid jobR rid : Json) (tf : List (String × Json)) (n m : Nat),
      (svc.onCreate (queryPayload cfg query (resolveDs dsid cfg))).status < 400 →
      pyIndex (svc.onCreate (queryPayload cfg query (resolveDs dsid cfg))).body "id" = .ok qid →
      (svc.onTrigger qid none).status < 400 →
      (svc.onTrigger qid none).body = .obj tf →
      alist "query_result" tf = none →
      alist "job" tf = some jobObj →
      pyIndex jobObj "id" = .ok jid →
      (∀ k, k < n → pollStep (svc.onJob jid k) = .ok none) →
      (svc.onJob jid n).status < 400 →
      pyIndex (svc.onJob jid n).body "job" = .ok jobR →
      pyIndex jobR "status" = .ok (.num 3) →
      pyIndex jobR "query_result_id" = .ok rid →
      400 ≤ (svc.onResult rid).status →
      (execute_query svc query dsid cfg (n + 1 + m)).1 =
        some (.error (.upstreamError (svc.onResult rid).status)))
  ∧ (∀ (svc : Service) (query : String) (dsid : Option Int) (cfg : Config) (fuel : Nat)
        (qid : Json) (tf : List (String × Json)),
      (svc.onCreate (queryPayload cfg query (resolveDs dsid cfg))).status < 400 →
      pyIndex (svc.onCreate (queryPayload cfg query (resolveDs dsid cfg))).body "id" = .ok qid →
      (svc.onTrigger qid none).status < 400 →
      (svc.onTrigger qid none).body = .obj tf →
      alist "query_result" tf = none →
      alist "job" tf = none →
      ((execute_query svc query dsid cfg fuel).1 =
        some (.error (.protocolError ("Invalid response format. Keys: " ++
          pyRepr (.arr (tf.map (fun p => Json.str p.1))))))
      ∧ ∀ s : Nat, (execute_query svc query dsid cfg fuel).1 ≠
          some (.error (.upstreamError s)))) := by
  refine ⟨?_, ?_, ?_, ?_, ?_⟩
  · intro svc query dsid cfg fuel hcs
    simp [execute_query, hcs]
  · intro svc query dsid cfg fuel qid hcs hid hts
    have hncs : ¬ 400 ≤ (svc.onCreate (queryPayload cfg query (resolveDs dsid cfg))).status := by
      omega
    simp [execute_query, hncs, hid, hts]
  · intro svc query dsid cfg qid jobObj jid tf n m hcs hid hts hbody hnoqr hjob hjid hcont hjs
    have hncs : ¬ 400 ≤ (svc.onCreate (queryPayload cfg query (resolveDs dsid cfg))).status := by
      omega
    have hnts : ¬ 400 ≤ (svc.onTrigger qid none).status := by omega
    have hcont' : ∀ k, k < n → pollStep (svc.onJob jid (0 + k)) = .ok none := by
      intro k hk; rw [Nat.zero_add]; exact hcont k hk
    have hstep : pollStep (svc.onJob jid (0 + n)) =
        .error (.upstreamError (svc.onJob jid n).status) := by
      rw [Nat.zero_add]; exact pollStep_http _ hjs
    have hpoll := (pollTrace_exit (svc.onJob jid) jid n 0 (n + 1 + m)
      (by omega) hcont').1 _ hstep
    simp [execute_query, hncs, hnts, hid, hbody, hnoqr, hjob, hjid, hpoll]
  · intro svc query dsid cfg qid jobObj jid jobR rid tf n m hcs hid hts hbody hnoqr hjob hjid
      hcont hjs hjr hst hrid hres
    have hncs : ¬ 400 ≤ (svc.onCreate (queryPayload cfg query (resolveDs dsid cfg))).status := by
      omega
    have hnts : ¬ 400 ≤ (svc.onTrigger qid none).status := by omega
    have hcont' : ∀ k, k < n → pollStep (svc.onJob jid (0 + k)) = .ok none := by
      intro k hk; rw [Nat.zero_add]; exact hcont k hk
    have hstep : pollStep (svc.onJob jid (0 + n)) = .ok (some jobR) := by
      rw [Nat.zero_add]; exact pollStep_completed _ jobR hjs hjr hst
    have hpoll := (pollTrace_exit (svc.onJob jid) jid n 0 (n + 1 + m)
      (by omega) hcont').2 jobR hstep
    simp [execute_query, hncs, hnts, hid, hbody, hnoqr, hjob, hjid, hpoll, hrid, hres]
  · intro svc query dsid cfg fuel qid tf hcs hid hts hbody hnoqr hnojob
    have hncs : ¬ 400 ≤ (svc.onCreate (queryPayload cfg query (resolveDs dsid cfg))).status := by
      omega
    have hnts : ¬ 400 ≤ (svc.onTrigger qid none).status := by omega
    have hmain : (execute_query svc query dsid cfg fuel).1 =
        some (.error (.protocolError ("Invalid response format. Keys: " ++
          pyRepr (.arr (tf.map (fun p => Json.str p.1)))))) := by
      simp [execute_query, hncs, hnts, hid, hbody, hnoqr, hnojob]
    refine ⟨hmain, fun s hcontra => ?_⟩
    rw [hmain] at hcontra
    simp at hcontra

end RedashMCP

namespace RedashMCP

/-- Witness for C7: concrete services exhibiting each failure — creation
returning 500, trigger returning 502, the first job poll returning 503, the
result fetch returning 504, and a trigger body with neither key yielding the
ProtocolError, which differs from every UpstreamError outcome. -/
theorem c7_execute_query_error_taxonomy_witness :
    (execute_query ⟨fun _ => ⟨500, .null⟩, fun _ _ => ⟨200, .null⟩,
        fun _ _ => ⟨200, .null⟩, fun _ => ⟨200, .null⟩⟩ "q" none
        ⟨6, fun _ => "abc123"⟩ 0).1 = some (.error (.upstreamError 500))
  ∧ (execute_query ⟨fun _ => ⟨200, .obj [("id", .num 7)]⟩, fun _ _ => ⟨502, .null⟩,
        fun _ _ => ⟨200, .null⟩, fun _ => ⟨200, .null⟩⟩ "q" none
        ⟨6, fun _ => "abc123"⟩ 0).1 = some (.error (.upstreamError 502))
  ∧ (execute_query ⟨fun _ => ⟨200, .obj [("id", .num 7)]⟩,
        fun _ _ => ⟨200, .obj [("job", .obj [("id", .str "jj")])]⟩,
        fun _ _ => ⟨503, .null⟩, fun _ => ⟨200, .null⟩⟩ "q" none
        ⟨6, fun _ => "abc123"⟩ 1).1 = some (.error (.upstreamError 503))
  ∧ (execute_query ⟨fun _ => ⟨200, .obj [("id", .num 7)]⟩,
        fun _ _ => ⟨200, .obj [("job", .obj [("id", .str "jj")])]⟩,
        fun _ _ => ⟨200, .obj [("job", .obj [("status", .num 3), ("query_result_id", .num 9)])]⟩,
        fun _ => ⟨504, .null⟩⟩ "q" none
        ⟨6, fun _ => "abc123"⟩ 1).1 = some (.error (.upstreamError 504))
  ∧ ((execute_query ⟨fun _ => ⟨200, .obj [("id", .num 7)]⟩, fun _ _ => ⟨200, .obj []⟩,
        fun _ _ => ⟨200, .null⟩, fun _ => ⟨200, .null⟩⟩ "q" none
        ⟨6, fun _ => "abc123"⟩ 0).1 =
      some (.error (.protocolError ("Invalid response format. Keys: " ++ pyRepr (.arr []))))
    ∧ (execute_query ⟨fun _ => ⟨200, .obj [("id", .num 7)]⟩, fun _ _ => ⟨200, .obj []⟩,
        fun _ _ => ⟨200, .null⟩, fun _ => ⟨200, .null⟩⟩ "q" none
        ⟨6, fun _ => "abc123"⟩ 0).1 ≠ some (.error (.upstreamError 500))) := by
  have h5 := c7_execute_query_error_taxonomy.2.2.2.2
    ⟨fun _ => ⟨200, .obj [("id", .num 7)]⟩, fun _ _ => ⟨200, .obj []⟩,
     fun _ _ => ⟨200, .null⟩, fun _ => ⟨200, .null⟩⟩ "q" none
    ⟨6, fun _ => "abc123"⟩ 0 (.num 7) [] (by decide) rfl (by decide) rfl rfl rfl
  exact ⟨c7_execute_query_error_taxonomy.1
      ⟨fun _ => ⟨500, .null⟩, fun _ _ => ⟨200, .null⟩,
       fun _ _ => ⟨200, .null⟩, fun _ => ⟨200, .null⟩⟩ "q" none
      ⟨6, fun _ => "abc123"⟩ 0 (by decide),
    c7_execute_query_error_taxonomy.2.1
      ⟨fun _ => ⟨200, .obj [("id", .num 7)]⟩, fun _ _ => ⟨502, .null⟩,
       fun _ _ => ⟨200, .null⟩, fun _ => ⟨200, .null⟩⟩ "q" none
      ⟨6, fun _ => "abc123"⟩ 0 (.num 7) (by decide) rfl (by decide),
    c7_execute_query_error_taxonomy.2.2.1
      ⟨fun _ => ⟨200, .obj [("id", .num 7)]⟩,
       fun _ _ => ⟨200, .obj [("job", .obj [("id", .str "jj")])]⟩,
       fun _ _ => ⟨503, .null⟩, fun _ => ⟨200, .null⟩⟩ "q" none
      ⟨6, fun _ => "abc123"⟩ (.num 7) (.obj [("id", .str "jj")]) (.str "jj")
      [("job", .obj [("id", .str "jj")])] 0 0 (by decide) rfl (by decide) rfl rfl rfl rfl
      (fun k hk => absurd hk (Nat.not_lt_zero k)) (by decide),
    c7_execute_query_error_taxonomy.2.2.2.1
      ⟨fun _ => ⟨200, .obj [("id", .num 7)]⟩,
       fun _ _ => ⟨200, .obj [("job", .obj [("id", .str "jj")])]⟩,
       fun _ _ => ⟨200, .obj [("job", .obj [("status", .num 3), ("query_result_id", .num 9)])]⟩,
       fun _ => ⟨504, .null⟩⟩ "q" none
      ⟨6, fun _ => "abc123"⟩ (.num 7) (.obj [("id", .str "jj")]) (.str "jj")
      (.obj [("status", .num 3), ("query_result_id", .num 9)]) (.num 9)
      [("job", .obj [("id", .str "jj")])] 0 0 (by decide) rfl (by decide) rfl rfl rfl rfl
      (fun k hk => absurd hk (Nat.not_lt_zero k)) (by decide) rfl rfl rfl (by decide),
    h5.1, h5.2 500⟩

end RedashMCP
